import Mathlib

/-!
Shallow embedding of the Salesforce desktop-extension MCP server (TypeScript)
for spec verification.  Sources embedded:

* `src/src/index.ts` — monolithic server: `createConnectionInternal`,
  `handleToolCall`, `aggregateQuery`, `dmlRecords`, `manageObject`,
  `manageFieldPermissions`, `grantFieldPermissions`, `executeAnonymous`.
* `src/unnamed/part_001` — modular `manageObject` handler (read-merge-write
  update path).

Network interactions are modelled by passing the platform's responses as
explicit oracle arguments and by returning, next to each handler's rendered
response, the list of platform calls the handler issues, in order.
JavaScript truthiness (`undefined`/`null`/`0`/`""`/`false` are falsy) is
modelled explicitly wherever the source branches on it.
-/

/-- A JavaScript value as it occurs in records returned by the platform. -/
inductive JsVal where
  | vNull
  | vBool (b : Bool)
  | vNum (n : Int)
  | vStr (s : String)
deriving DecidableEq, Repr

/-- JS truthiness of a possibly-absent value (`none` models `undefined`). -/
def jsTruthy : Option JsVal → Bool
  | none => false
  | some JsVal.vNull => false
  | some (JsVal.vBool b) => b
  | some (JsVal.vNum n) => n != 0
  | some (JsVal.vStr s) => s != ""

/-- JS truthiness of a possibly-absent string field. -/
def jsTruthyS : Option String → Bool
  | none => false
  | some s => s != ""

/-- JS `a || b` for an optional string `a` with string default `b`. -/
def jsOrS (a : Option String) (b : String) : String :=
  match a with
  | none => b
  | some s => if s = "" then b else s

/-- JS template interpolation of a possibly-undefined string. -/
def jsShowS : Option String → String
  | none => "undefined"
  | some s => s

/-- JS string coercion of a value, as template literals render it. -/
def jsShowVal : JsVal → String
  | JsVal.vNull => "null"
  | JsVal.vBool b => if b then "true" else "false"
  | JsVal.vNum n => toString n
  | JsVal.vStr s => s

/-- JS `s.endsWith(suffix)`, computed on the character lists. -/
def strEndsWith (s suffix : String) : Bool :=
  decide (suffix.data.length ≤ s.data.length) &&
    s.data.drop (s.data.length - suffix.data.length) == suffix.data

/-- Splitting on every single space, keeping empty pieces, as JS
`s.split(' ')` does; `acc` holds the current piece reversed. -/
def splitSpaceAux : List Char → List Char → List String
  | [], acc => [String.mk acc.reverse]
  | c :: rest, acc =>
    if c = ' ' then String.mk acc.reverse :: splitSpaceAux rest []
    else splitSpaceAux rest (c :: acc)

/-- The uniform MCP tool response: one text block plus the error flag
(absent `isError` in the source is the falsy default). -/
structure ToolResponse where
  text : String
  isError : Bool := false
deriving DecidableEq, Repr

/-! ## Connection manager (`createConnectionInternal`, src/src/index.ts 91-171) -/

/-- The extension configuration (`ExtensionConfig` in src/src/index.ts). -/
structure ExtensionConfig where
  connectionType : String
  instanceUrl : String
  username : Option String := none
  password : Option String := none
  securityToken : Option String := none
  clientId : Option String := none
  clientSecret : Option String := none
  apiVersion : String := "58.0"
  timeout : Nat := 30000
deriving DecidableEq, Repr

/-- The parsed JSON body and status of the OAuth token endpoint's reply. -/
structure TokenEndpointResponse where
  statusCode : Nat
  error : Option String := none
  error_description : Option String := none
  instance_url : Option String := none
  access_token : Option String := none
deriving DecidableEq, Repr

/-- The jsforce connection value the resolver returns: either an OAuth
connection built from the token response's fields, or a SOAP-login
connection built from the login URL and API version. -/
inductive Conn where
  | oauth (instanceUrl accessToken : Option String)
  | soap (loginUrl apiVersion : String)
deriving DecidableEq, Repr

/-- A network exchange attempted by the connection resolver. -/
inductive ConnEvent where
  | tokenRequest (clientId clientSecret : String)
  | soapLogin (username passwordWithToken : String)
deriving DecidableEq, Repr

/-- Embedding of `createConnectionInternal` (src/src/index.ts 91-171).
`resp` is what the token endpoint would answer, `loginResult` what the SOAP
login would do; the second component lists the network calls issued. -/
def createConnectionInternal (cfg : ExtensionConfig) (resp : TokenEndpointResponse)
    (loginResult : Except String Unit) : Except String Conn × List ConnEvent :=
  if cfg.connectionType = "OAuth_2.0_Client_Credentials" then
    if jsTruthyS cfg.clientId = false ∨ jsTruthyS cfg.clientSecret = false then
      (Except.error "Client ID and Client Secret are required for OAuth 2.0", [])
    else
      let ev := ConnEvent.tokenRequest (jsShowS cfg.clientId) (jsShowS cfg.clientSecret)
      if resp.statusCode ≠ 200 then
        (Except.error ("OAuth failed: " ++ jsShowS resp.error ++ " - " ++
            jsShowS resp.error_description), [ev])
      else
        (Except.ok (Conn.oauth resp.instance_url resp.access_token), [ev])
  else
    if jsTruthyS cfg.username = false ∨ jsTruthyS cfg.password = false then
      (Except.error "Username and Password are required", [])
    else
      let ev := ConnEvent.soapLogin (jsShowS cfg.username)
        (jsShowS cfg.password ++ (cfg.securityToken.getD ""))
      match loginResult with
      | Except.error e => (Except.error e, [ev])
      | Except.ok _ => (Except.ok (Conn.soap cfg.instanceUrl cfg.apiVersion), [ev])

/-! ## Field-level security (`manageFieldPermissions`, `grantFieldPermissions`,
src/src/index.ts 694-742 and 1053-1080) -/

/-- A platform call issued by the field-permission handlers, in order. -/
inductive PlatCall where
  | queryFieldPermissions (fullFieldName : String)
  | queryProfile (profileName : String)
  | queryPermSet (profileId : String)
  | createFieldPermission (permSetId objectName fullFieldName : String)
deriving DecidableEq, Repr

/-- The platform's answers to the queries/inserts the field-permission
handlers issue (an `Except.error` models the awaited call throwing). -/
structure GrantPlatform where
  queryProfile : String → Except String (List String)
  queryPermSet : String → Except String (List String)
  createFieldPermission : String → String → String → Except String Unit
  queryFieldPermissions : String → List (String × Bool × Bool)

/-- One row of the `view` query rendered as in the source. -/
def renderPermRow (row : String × Bool × Bool) : String :=
  row.1 ++ ": Read=" ++ (if row.2.1 then "true" else "false") ++
    ", Edit=" ++ (if row.2.2 then "true" else "false")

/-- Field API name suffixing shared by both handlers
(`fieldName.endsWith('__c') ? fieldName : fieldName + '__c'`). -/
def fieldApiNameOf (fieldName : String) : String :=
  if strEndsWith fieldName "__c" then fieldName else fieldName ++ "__c"

/-- Embedding of `grantFieldPermissions` (src/src/index.ts 1053-1080).
Every profile's body is wrapped in a try/catch whose handler only logs, so
the function issues its calls and then resolves successfully no matter what
the platform answered; the returned `Except` is what the awaiting caller
observes. -/
def grantFieldPermissions (p : GrantPlatform) (objectName fieldName : String)
    (profileNames : List String) : List PlatCall × Except String Unit :=
  let fullFieldName := objectName ++ "." ++ fieldApiNameOf fieldName
  ((profileNames.map (fun profileName =>
      match p.queryProfile profileName with
      | Except.error _ => [PlatCall.queryProfile profileName]
      | Except.ok [] => [PlatCall.queryProfile profileName]
      | Except.ok (profileId :: _) =>
        match p.queryPermSet profileId with
        | Except.error _ => [PlatCall.queryProfile profileName, PlatCall.queryPermSet profileId]
        | Except.ok [] => [PlatCall.queryProfile profileName, PlatCall.queryPermSet profileId]
        | Except.ok (permSetId :: _) =>
          match p.createFieldPermission permSetId objectName fullFieldName with
          | Except.ok _ =>
            [PlatCall.queryProfile profileName, PlatCall.queryPermSet profileId,
             PlatCall.createFieldPermission permSetId objectName fullFieldName]
          | Except.error _ =>
            [PlatCall.queryProfile profileName, PlatCall.queryPermSet profileId,
             PlatCall.createFieldPermission permSetId objectName fullFieldName]
      )).flatten,
   Except.ok ())

/-- Operation selector of the field-permission tool. -/
inductive FieldPermOp where
  | grant
  | revoke
  | view
deriving DecidableEq, Repr

/-- Arguments of `salesforce_manage_field_permissions`. -/
structure FieldPermArgs where
  operation : FieldPermOp
  objectName : String
  fieldName : String
  profileNames : Option (List String) := none
deriving Repr

/-- Embedding of `manageFieldPermissions` (src/src/index.ts 694-742); returns
the rendered response and the platform calls issued. The grant/revoke loop
matches the source: each profile's body sits in a try/catch that records
`Failed for ...` when the awaited grant rejects; the revoke branch performs
no platform call. -/
def manageFieldPermissions (p : GrantPlatform) (args : FieldPermArgs) :
    ToolResponse × List PlatCall :=
  let fullFieldName := args.objectName ++ "." ++ fieldApiNameOf args.fieldName
  match args.operation with
  | FieldPermOp.view =>
    let rows := p.queryFieldPermissions fullFieldName
    ({ text := "Field permissions for " ++ fullFieldName ++ ":\n" ++
        String.intercalate "\n" (rows.map renderPermRow) },
     [PlatCall.queryFieldPermissions fullFieldName])
  | op =>
    let profiles := args.profileNames.getD ["System Administrator"]
    let outcomes := profiles.map (fun profileName =>
      match op with
      | FieldPermOp.grant =>
        match grantFieldPermissions p args.objectName args.fieldName [profileName] with
        | (evts, Except.ok _) => ("Granted to " ++ profileName, evts)
        | (evts, Except.error e) => ("Failed for " ++ profileName ++ ": " ++ e, evts)
      | _ => ("Revoked from " ++ profileName, []))
    ({ text := String.intercalate "\n" (outcomes.map Prod.fst) },
     (outcomes.map Prod.snd).flatten)

/-! ## DML records (`dmlRecords`, src/src/index.ts 570-607, and its dispatch
through `handleToolCall`, src/src/index.ts 426-476) -/

/-- A record submitted through the DML tool: JS object as key/value pairs. -/
def JsRecord := List (String × JsVal)
deriving instance DecidableEq, Repr for JsRecord

/-- JS property access `record[key]` (`none` models `undefined`). -/
def jsGet (r : JsRecord) (key : String) : Option JsVal :=
  (r.find? (fun kv => kv.fst = key)).map Prod.snd

/-- Operation selector of the DML tool (the tool schema's enum). -/
inductive DMLOp where
  | insert
  | update
  | delete
  | upsert
deriving DecidableEq, Repr

/-- `args.operation.toUpperCase()` as used in the rendered report. -/
def DMLOp.upper : DMLOp → String
  | DMLOp.insert => "INSERT"
  | DMLOp.update => "UPDATE"
  | DMLOp.delete => "DELETE"
  | DMLOp.upsert => "UPSERT"

/-- Arguments of `salesforce_dml_records`. -/
structure DMLArgs where
  operation : DMLOp
  objectName : String
  records : List JsRecord
  externalIdField : Option String := none

/-- One entry of the platform's bulk result (`success`, optional `errors`
messages; `none` errors models the field being absent). -/
structure SaveResult where
  success : Bool
  errors : Option (List String) := none
deriving DecidableEq, Repr

/-- The raw value the platform returns: a single object for a one-record
call, an array otherwise (`Array.isArray(result)` in the source). -/
inductive RawDmlResult where
  | single (r : SaveResult)
  | many (rs : List SaveResult)
deriving DecidableEq, Repr

/-- `Array.isArray(result) ? result : [result]`. -/
def RawDmlResult.toList : RawDmlResult → List SaveResult
  | RawDmlResult.single r => [r]
  | RawDmlResult.many rs => rs

/-- Count of result entries with `success` set, as the renderer computes it. -/
def dmlSuccessCount (rs : List SaveResult) : Nat :=
  (rs.filter (fun r => r.success)).length

/-- `results.length - success`, the renderer's failure count. -/
def dmlFailedCount (rs : List SaveResult) : Nat :=
  rs.length - dmlSuccessCount rs

/-- `formatErrors` (src/src/index.ts 1046-1051) on an array of errors. -/
def formatErrors (errors : List String) : String :=
  String.intercalate ", " errors

/-- The per-failed-record error block appended when `failed > 0`. -/
def dmlErrorLines (rs : List SaveResult) : String :=
  String.join ((rs.enum.map (fun ri =>
    if ri.2.success = false ∧ ri.2.errors.isSome then
      "Record " ++ toString (ri.1 + 1) ++ ": " ++
        formatErrors (ri.2.errors.getD []) ++ "\n"
    else "")))

/-- The rendered DML report (src/src/index.ts 589-606). -/
def dmlRender (op : DMLOp) (raw : RawDmlResult) : ToolResponse :=
  let results := raw.toList
  let success := dmlSuccessCount results
  let failed := results.length - success
  let base := op.upper ++ " completed: " ++ toString success ++ " successful, " ++
    toString failed ++ " failed"
  { text := if failed > 0 then base ++ "\n\nErrors:\n" ++ dmlErrorLines results else base }

/-- A network operation issued while serving a DML tool call. -/
inductive NetEvent where
  | sessionAcquire
  | dmlInsert (objectName : String) (records : List JsRecord)
  | dmlUpdate (objectName : String) (records : List JsRecord)
  | dmlDelete (objectName : String) (ids : List (Option JsVal))
  | dmlUpsert (objectName : String) (externalIdField : Option String) (records : List JsRecord)
deriving DecidableEq, Repr

/-- The platform call `dmlRecords` issues for its arguments, or the error it
throws before issuing any (src/src/index.ts 573-587). -/
def dmlPlatformCall (args : DMLArgs) : Except String NetEvent :=
  match args.operation with
  | DMLOp.insert => Except.ok (NetEvent.dmlInsert args.objectName args.records)
  | DMLOp.update => Except.ok (NetEvent.dmlUpdate args.objectName args.records)
  | DMLOp.delete =>
    Except.ok (NetEvent.dmlDelete args.objectName (args.records.map (fun r => jsGet r "Id")))
  | DMLOp.upsert =>
    if jsTruthyS args.externalIdField = false then
      Except.error "externalIdField required for upsert"
    else
      Except.ok (NetEvent.dmlUpsert args.objectName args.externalIdField args.records)

/-- The number of records (for delete: identifiers) submitted by the call. -/
def dmlSubmittedCount (args : DMLArgs) : Nat :=
  match args.operation with
  | DMLOp.delete => (args.records.map (fun r => jsGet r "Id")).length
  | _ => args.records.length

/-- Embedding of `handleToolCall` serving `salesforce_dml_records`
(src/src/index.ts 426-476): the connection is acquired first — a network
login — then `dmlRecords` runs; any error thrown is caught at the boundary
and rendered with `isError: true`.  `raw` is the platform's bulk result for
the issued call. -/
def handleDmlToolCall (args : DMLArgs) (raw : RawDmlResult) :
    ToolResponse × List NetEvent :=
  match dmlPlatformCall args with
  | Except.error e =>
    ({ text := "Error: " ++ e, isError := true }, [NetEvent.sessionAcquire])
  | Except.ok ev =>
    (dmlRender args.operation raw, [NetEvent.sessionAcquire, ev])

/-! ## Aggregate query (`aggregateQuery`, src/src/index.ts 542-568) -/

/-- JS `field.split(' ')`: split on every single space, keeping empties. -/
def jsSplitSpace (s : String) : List String :=
  splitSpaceAux s.data []

/-- `field.split(' ')[0]`, the bare field name. -/
def baseFieldOf (field : String) : String :=
  (jsSplitSpace field).headD ""

/-- `field.split(' ').pop()`, the alias (last space-separated token). -/
def aliasOf (field : String) : String :=
  (jsSplitSpace field).getLastD ""

/-- `record[alias] || record[baseField]` with JS truthiness. -/
def aggValue (record : JsRecord) (field : String) : Option JsVal :=
  let a := jsGet record (aliasOf field)
  if jsTruthy a then a else jsGet record (baseFieldOf field)

/-- `value !== null && value !== undefined ? value : 'null'`. -/
def renderAggValue (v : Option JsVal) : String :=
  match v with
  | none => "null"
  | some JsVal.vNull => "null"
  | some w => jsShowVal w

/-- One `    alias: value` line of a rendered aggregate group. -/
def renderAggLine (record : JsRecord) (field : String) : String :=
  "    " ++ aliasOf field ++ ": " ++ renderAggValue (aggValue record field)

/-! ## Anonymous Apex execution (`executeAnonymous`, src/src/index.ts 926-945) -/

/-- The tooling API's anonymous-execution result as the renderer reads it. -/
structure ExecAnonResult where
  compiled : Bool
  success : Bool
  line : Int := 0
  column : Int := 0
  compileProblem : String := ""
  exceptionMessage : String := ""
  exceptionStackTrace : Option String := none
deriving DecidableEq, Repr

/-- The stack-trace suffix appended only when the field is truthy. -/
def execStackSuffix (r : ExecAnonResult) : String :=
  if jsTruthyS r.exceptionStackTrace then
    "\n\nStack trace:\n" ++ jsShowS r.exceptionStackTrace
  else ""

/-- Embedding of `executeAnonymous` (src/src/index.ts 926-945): the rendered
response; no `isError` is set by the handler, so the flag stays false. -/
def executeAnonymous (r : ExecAnonResult) : ToolResponse :=
  let intro := "Compilation: " ++ (if r.compiled then "Success" else "Failed") ++ "\n"
  let text :=
    if r.compiled = false then
      intro ++ "Error at line " ++ toString r.line ++ ", column " ++ toString r.column ++
        ": " ++ r.compileProblem
    else if r.success then
      intro ++ "Execution: Success"
    else
      intro ++ "Execution: Failed\n" ++ r.exceptionMessage ++ execStackSuffix r
  { text := text }

/-! ## Custom-object metadata management: monolithic `manageObject`
(src/src/index.ts 609-636) and modular `manageObject` (src/unnamed/part_001,
lines 44-113) -/

/-- `nameField` sub-descriptor of a CustomObject. -/
structure NameFieldMeta where
  label : Option String := none
  type : Option String := none
  displayFormat : Option String := none
deriving DecidableEq, Repr

/-- A CustomObject metadata descriptor as both handlers build and read it. -/
structure CustomObjectMeta where
  fullName : String
  label : Option String := none
  pluralLabel : Option String := none
  description : Option String := none
  nameField : NameFieldMeta := {}
  deploymentStatus : Option String := none
  sharingModel : Option String := none
deriving DecidableEq, Repr

/-- Arguments of the object-management tool (both versions). -/
structure ManageObjectArgs where
  operation : String
  objectName : String
  label : Option String := none
  pluralLabel : Option String := none
  description : Option String := none
  nameFieldLabel : Option String := none
  nameFieldType : Option String := none
  nameFieldFormat : Option String := none
  sharingModel : Option String := none
deriving Repr

/-- A metadata-API call issued by an object-management handler. -/
inductive MetaCall where
  | metadataRead (metaType fullName : String)
  | metadataCreate (metaType : String) (m : CustomObjectMeta)
  | metadataUpdate (metaType : String) (m : CustomObjectMeta)
deriving DecidableEq, Repr

/-- The descriptor the monolithic `manageObject` submits
(src/src/index.ts 610-623), built from the arguments alone for create and
update alike. -/
def manageObjectMetadata (args : ManageObjectArgs) : CustomObjectMeta :=
  { fullName := args.objectName ++ "__c",
    label := args.label,
    pluralLabel := args.pluralLabel,
    description := if jsTruthyS args.description then args.description else none,
    nameField :=
      { label := some (jsOrS args.nameFieldLabel (jsShowS args.label ++ " Name")),
        type := some (jsOrS args.nameFieldType "Text"),
        displayFormat :=
          if jsTruthyS args.nameFieldFormat then args.nameFieldFormat else none },
    deploymentStatus := some "Deployed",
    sharingModel := some (jsOrS args.sharingModel "ReadWrite") }

/-- The calls the monolithic `manageObject` issues: exactly one
`conn.metadata[operation]('CustomObject', metadata)` call, with no preceding
read (src/src/index.ts 625). -/
def manageObjectCalls (args : ManageObjectArgs) : List MetaCall :=
  if args.operation = "create" then
    [MetaCall.metadataCreate "CustomObject" (manageObjectMetadata args)]
  else
    [MetaCall.metadataUpdate "CustomObject" (manageObjectMetadata args)]

/-- JS conditional spread `...(a && { field: a })` over optional strings:
keep the current value unless the override is truthy. -/
def overrideS (a : Option String) (current : Option String) : Option String :=
  if jsTruthyS a then a else current

/-- The pure merge of the modular update path (src/unnamed/part_001,
lines 91-105): spread the current descriptor, then apply each truthy
caller-supplied override; `nameField` merges its three sub-attributes the
same way. -/
def mergeObjectUpdate (current : CustomObjectMeta) (args : ManageObjectArgs) :
    CustomObjectMeta :=
  { current with
    label := overrideS args.label current.label,
    pluralLabel := overrideS args.pluralLabel current.pluralLabel,
    description := overrideS args.description current.description,
    sharingModel := overrideS args.sharingModel current.sharingModel,
    nameField :=
      { label := overrideS args.nameFieldLabel current.nameField.label,
        type := overrideS args.nameFieldType current.nameField.type,
        displayFormat := overrideS args.nameFieldFormat current.nameField.displayFormat } }

/-- `objectName.replace(/__c$/, '')`. -/
def stripCustomSuffix (s : String) : String :=
  if strEndsWith s "__c" then String.mk (s.data.take (s.data.length - 3)) else s

/-- `.replace(/_/g, ' ')`. -/
def underscoresToSpaces (s : String) : String :=
  String.mk (s.data.map (fun c => if c = '_' then ' ' else c))

/-- The descriptor the modular create path builds (src/unnamed/part_001,
lines 49-61). -/
def manageObjectModularCreateMeta (args : ManageObjectArgs) : CustomObjectMeta :=
  { fullName := args.objectName,
    label := some (jsOrS args.label (underscoresToSpaces (stripCustomSuffix args.objectName))),
    pluralLabel := args.pluralLabel,
    description := if jsTruthyS args.description then args.description else none,
    nameField :=
      { type := some (jsOrS args.nameFieldType "Text"),
        label := some (jsOrS args.nameFieldLabel "Name"),
        displayFormat :=
          if args.nameFieldType = some "AutoNumber" ∧ jsTruthyS args.nameFieldFormat then
            args.nameFieldFormat
          else none },
    deploymentStatus := some "Deployed",
    sharingModel := if jsTruthyS args.sharingModel then args.sharingModel else none }

/-- Embedding of the modular `manageObject` (src/unnamed/part_001,
lines 44-113): `readResult` is what `conn.metadata.read` returns for the
update path (`none` when the object is missing), `opSuccess` the submitted
call's `success` flag.  Returns the response and the metadata calls issued. -/
def manageObjectModular (args : ManageObjectArgs) (readResult : Option CustomObjectMeta)
    (opSuccess : Bool) : ToolResponse × List MetaCall :=
  if args.operation = "create" then
    let m := manageObjectModularCreateMeta args
    (if opSuccess then
      { text := "Successfully created custom object " ++ args.objectName, isError := false }
     else
      { text := "Failed to create custom object " ++ args.objectName, isError := true },
     [MetaCall.metadataCreate "CustomObject" m])
  else
    match readResult with
    | none =>
      ({ text := "Custom object " ++ args.objectName ++ " not found", isError := true },
       [MetaCall.metadataRead "CustomObject" args.objectName])
    | some current =>
      let merged := mergeObjectUpdate current args
      (if opSuccess then
        { text := "Successfully updated custom object " ++ args.objectName, isError := false }
       else
        { text := "Failed to update custom object " ++ args.objectName, isError := true },
       [MetaCall.metadataRead "CustomObject" args.objectName,
        MetaCall.metadataUpdate "CustomObject" merged])

/-! ## Theorems -/

/-- Claim C5: for a valid OAuth client-credentials configuration, a token
endpoint answering HTTP 200 yields a connection whose instance URL and
access token are the body's `instance_url` and `access_token`; a non-200
status yields an authentication error carrying the body's `error` and
`error_description`. -/
theorem oauth_token_exchange (cfg : ExtensionConfig) (resp : TokenEndpointResponse)
    (login : Except String Unit)
    (hct : cfg.connectionType = "OAuth_2.0_Client_Credentials")
    (hid : jsTruthyS cfg.clientId = true)
    (hsec : jsTruthyS cfg.clientSecret = true) :
    (resp.statusCode = 200 →
      (createConnectionInternal cfg resp login).1 =
        Except.ok (Conn.oauth resp.instance_url resp.access_token)) ∧
    (resp.statusCode ≠ 200 →
      (createConnectionInternal cfg resp login).1 =
        Except.error ("OAuth failed: " ++ jsShowS resp.error ++ " - " ++
          jsShowS resp.error_description)) := by
  unfold createConnectionInternal
  rw [if_pos hct, if_neg (by simp [hid, hsec])]
  constructor
  · intro h200
    simp [h200]
  · intro hne
    simp [hne]

def cfgOAuthOk : ExtensionConfig :=
  { connectionType := "OAuth_2.0_Client_Credentials",
    instanceUrl := "https://example.my.salesforce.com",
    clientId := some "cid", clientSecret := some "csecret" }

def respToken200 : TokenEndpointResponse :=
  { statusCode := 200, instance_url := some "https://inst.example.com",
    access_token := some "tok" }

/-- Witness for C5 at a concrete configuration and 200 response. -/
theorem oauth_token_exchange_witness :
    cfgOAuthOk.connectionType = "OAuth_2.0_Client_Credentials" ∧
    jsTruthyS cfgOAuthOk.clientId = true ∧
    jsTruthyS cfgOAuthOk.clientSecret = true ∧
    respToken200.statusCode = 200 ∧
    (createConnectionInternal cfgOAuthOk respToken200 (Except.ok ())).1 =
      Except.ok (Conn.oauth (some "https://inst.example.com") (some "tok")) :=
  ⟨rfl, by decide, by decide, rfl,
    (oauth_token_exchange cfgOAuthOk respToken200 (Except.ok ()) rfl (by decide)
      (by decide)).1 rfl⟩

def respStatusAny : TokenEndpointResponse := { statusCode := 200 }

def cfgTokenlessUserPw : ExtensionConfig :=
  { connectionType := "User_Password", instanceUrl := "https://login.salesforce.com",
    username := some "user@example.com", password := some "pw" }

/-- Claim C6 counterexample: a username/password configuration whose
`securityToken` is missing is not rejected — the resolver still attempts the
network login (with the bare password) and succeeds, instead of failing with
an authentication error before any network call. -/
theorem missing_security_token_still_logs_in :
    cfgTokenlessUserPw.securityToken = none ∧
    (createConnectionInternal cfgTokenlessUserPw respStatusAny (Except.ok ())).2 =
      [ConnEvent.soapLogin "user@example.com" "pw"] ∧
    (createConnectionInternal cfgTokenlessUserPw respStatusAny (Except.ok ())).1 =
      Except.ok (Conn.soap "https://login.salesforce.com" "58.0") := by
  refine ⟨rfl, by decide, rfl⟩

/-- Claim C6 (amended): a configuration missing (or blank in) the fields the
selected flow actually validates — client id or client secret for OAuth
client credentials, username or password otherwise — fails with the
corresponding error before any network call; `securityToken` and
`instanceUrl` are not validated. -/
theorem missing_credentials_fail_without_network (cfg : ExtensionConfig)
    (resp : TokenEndpointResponse) (login : Except String Unit) :
    (cfg.connectionType = "OAuth_2.0_Client_Credentials" →
      (jsTruthyS cfg.clientId = false ∨ jsTruthyS cfg.clientSecret = false) →
      createConnectionInternal cfg resp login =
        (Except.error "Client ID and Client Secret are required for OAuth 2.0", [])) ∧
    (cfg.connectionType ≠ "OAuth_2.0_Client_Credentials" →
      (jsTruthyS cfg.username = false ∨ jsTruthyS cfg.password = false) →
      createConnectionInternal cfg resp login =
        (Except.error "Username and Password are required", [])) := by
  constructor
  · intro hct hmiss
    unfold createConnectionInternal
    rw [if_pos hct, if_pos hmiss]
  · intro hct hmiss
    unfold createConnectionInternal
    rw [if_neg hct, if_pos hmiss]

def cfgOAuthNoSecret : ExtensionConfig :=
  { connectionType := "OAuth_2.0_Client_Credentials",
    instanceUrl := "https://example.my.salesforce.com", clientId := some "cid" }

def cfgUserPwNoPassword : ExtensionConfig :=
  { connectionType := "User_Password", instanceUrl := "https://login.salesforce.com",
    username := some "user@example.com" }

/-- Witness for the amended C6 at concrete configurations. -/
theorem missing_credentials_fail_without_network_witness :
    (createConnectionInternal cfgOAuthNoSecret respStatusAny (Except.ok ()) =
      (Except.error "Client ID and Client Secret are required for OAuth 2.0", [])) ∧
    (createConnectionInternal cfgUserPwNoPassword respStatusAny (Except.ok ()) =
      (Except.error "Username and Password are required", [])) :=
  ⟨(missing_credentials_fail_without_network cfgOAuthNoSecret respStatusAny
      (Except.ok ())).1 rfl (Or.inr rfl),
   (missing_credentials_fail_without_network cfgUserPwNoPassword respStatusAny
      (Except.ok ())).2 (by decide) (Or.inr rfl)⟩

def dmlArgsUpsertNoExt : DMLArgs :=
  { operation := DMLOp.upsert, objectName := "Account",
    records := [[("Name", JsVal.vStr "Acme")]] }

/-- Claim C4 counterexample: an upsert call without `externalIdField` does
raise the validation error, but only after the session has been acquired —
the dispatch boundary logs a network login before `dmlRecords` runs, so a
network operation is issued before the failure, contrary to the claim that
none is. -/
theorem upsert_validation_after_session_acquire :
    handleDmlToolCall dmlArgsUpsertNoExt (RawDmlResult.many []) =
      ({ text := "Error: externalIdField required for upsert", isError := true },
       [NetEvent.sessionAcquire]) := by
  decide

/-- Claim C4 (amended): an upsert call without a (truthy) `externalIdField`
fails with the validation error and never issues the upsert — the only
network operation in the call's trace is the session acquisition that the
dispatch boundary performs before dispatching. -/
theorem upsert_missing_externalId_no_dml_call (args : DMLArgs) (raw : RawDmlResult)
    (hop : args.operation = DMLOp.upsert)
    (hext : jsTruthyS args.externalIdField = false) :
    (handleDmlToolCall args raw).1 =
      { text := "Error: externalIdField required for upsert", isError := true } ∧
    (handleDmlToolCall args raw).2 = [NetEvent.sessionAcquire] := by
  have hcall : dmlPlatformCall args = Except.error "externalIdField required for upsert" := by
    unfold dmlPlatformCall
    rw [hop]
    simp [hext]
  constructor <;> simp [handleDmlToolCall, hcall]

/-- Witness for the amended C4 at a concrete call. -/
theorem upsert_missing_externalId_no_dml_call_witness :
    dmlArgsUpsertNoExt.operation = DMLOp.upsert ∧
    jsTruthyS dmlArgsUpsertNoExt.externalIdField = false ∧
    (handleDmlToolCall dmlArgsUpsertNoExt (RawDmlResult.many [])).2 =
      [NetEvent.sessionAcquire] :=
  ⟨rfl, rfl,
    (upsert_missing_externalId_no_dml_call dmlArgsUpsertNoExt (RawDmlResult.many [])
      rfl rfl).2⟩

/-- The complement split used for the DML counts: a result list's length is
the number of successful entries plus the number of failed ones. -/
theorem dml_length_split (rs : List SaveResult) :
    rs.length =
      (rs.filter (fun r => r.success)).length +
        (rs.filter (fun r => !r.success)).length := by
  induction rs with
  | nil => rfl
  | cons r t ih =>
    cases h : r.success <;> simp [List.filter_cons, h, ih] <;> omega

/-- Claim C9: whenever the platform's bulk result has one entry per
submitted record (per identifier for delete), the rendered report's failure
count is the number of entries with `success = false`, its success count the
number of remaining entries, and the two add up to the submitted count; the
rendered text displays exactly those two counts. -/
theorem dml_render_counts (args : DMLArgs) (raw : RawDmlResult)
    (hlen : raw.toList.length = dmlSubmittedCount args) :
    dmlFailedCount raw.toList = (raw.toList.filter (fun r => !r.success)).length ∧
    dmlSuccessCount raw.toList = (raw.toList.filter (fun r => r.success)).length ∧
    dmlSuccessCount raw.toList + dmlFailedCount raw.toList = dmlSubmittedCount args ∧
    (dmlRender args.operation raw).text =
      (let base := args.operation.upper ++ " completed: " ++
          toString (dmlSuccessCount raw.toList) ++ " successful, " ++
          toString (dmlFailedCount raw.toList) ++ " failed"
       if dmlFailedCount raw.toList > 0 then
         base ++ "\n\nErrors:\n" ++ dmlErrorLines raw.toList
       else base) := by
  have hsplit := dml_length_split raw.toList
  refine ⟨?_, rfl, ?_, rfl⟩
  · unfold dmlFailedCount dmlSuccessCount
    omega
  · unfold dmlFailedCount dmlSuccessCount at *
    omega

def dmlArgsInsertTwo : DMLArgs :=
  { operation := DMLOp.insert, objectName := "Account",
    records := [[("Name", JsVal.vStr "A1")], [("Name", JsVal.vStr "A2")]] }

def rawInsertTwo : RawDmlResult :=
  RawDmlResult.many
    [{ success := true }, { success := false, errors := some ["bad value"] }]

/-- Witness for C9 at a concrete two-record batch with one failure. -/
theorem dml_render_counts_witness :
    rawInsertTwo.toList.length = dmlSubmittedCount dmlArgsInsertTwo ∧
    dmlSuccessCount rawInsertTwo.toList + dmlFailedCount rawInsertTwo.toList =
      dmlSubmittedCount dmlArgsInsertTwo :=
  ⟨rfl, (dml_render_counts dmlArgsInsertTwo rawInsertTwo rfl).2.2.1⟩

def aggRecordZeroAlias : JsRecord :=
  [("total", JsVal.vNum 0), ("COUNT(Id)", JsVal.vNum 5)]

/-- Claim C7 counterexample: for the select-field `COUNT(Id) total`, the
platform's record holds the value 0 under the alias key `total`, so the
alias lookup does yield a value; yet the handler falls back to the bare
field name (JS `||` discards any falsy value, not only missing ones) and
renders the base field's 5 instead of the alias's 0. -/
theorem aggregate_alias_falsy_fallback :
    jsGet aggRecordZeroAlias (aliasOf "COUNT(Id) total") = some (JsVal.vNum 0) ∧
    aggValue aggRecordZeroAlias "COUNT(Id) total" =
      jsGet aggRecordZeroAlias (baseFieldOf "COUNT(Id) total") ∧
    renderAggLine aggRecordZeroAlias "COUNT(Id) total" = "    total: 5" := by
  refine ⟨by decide, by decide, by decide⟩

/-- Claim C7 (amended): the alias is the select-field's last
space-separated token and the bare field name its first; the handler
renders the value found under the alias key whenever that value is truthy,
and falls back to the bare field name whenever the alias lookup yields a
falsy value (absent, null, 0, empty string, or false) — not only when it
yields nothing. -/
theorem aggregate_alias_lookup (record : JsRecord) (field : String) :
    aliasOf field = (jsSplitSpace field).getLastD "" ∧
    baseFieldOf field = (jsSplitSpace field).headD "" ∧
    (jsTruthy (jsGet record (aliasOf field)) = true →
      aggValue record field = jsGet record (aliasOf field)) ∧
    (jsTruthy (jsGet record (aliasOf field)) = false →
      aggValue record field = jsGet record (baseFieldOf field)) := by
  refine ⟨rfl, rfl, ?_, ?_⟩ <;> intro h <;> simp [aggValue, h]

def aggRecordTruthyAlias : JsRecord :=
  [("total", JsVal.vNum 7), ("COUNT(Id)", JsVal.vNum 5)]

/-- Witness for the amended C7: a truthy alias value is rendered from the
alias key. -/
theorem aggregate_alias_lookup_witness :
    jsTruthy (jsGet aggRecordTruthyAlias (aliasOf "COUNT(Id) total")) = true ∧
    aggValue aggRecordTruthyAlias "COUNT(Id) total" =
      jsGet aggRecordTruthyAlias (aliasOf "COUNT(Id) total") :=
  ⟨by decide,
    (aggregate_alias_lookup aggRecordTruthyAlias "COUNT(Id) total").2.2.1 (by decide)⟩

/-- Claim C8: the rendered anonymous-execution outcome is exactly one of
three shapes — compile failure with line, column and problem; runtime
failure with the exception message (plus optional stack trace); success —
and the handler never sets the error flag, so a compiled-but-failed
execution reports "Execution: Failed" with the exception message while
`isError` stays false. -/
theorem executeAnonymous_outcomes (r : ExecAnonResult) :
    (executeAnonymous r).isError = false ∧
    (r.compiled = false →
      (executeAnonymous r).text =
        "Compilation: Failed\nError at line " ++ toString r.line ++ ", column " ++
          toString r.column ++ ": " ++ r.compileProblem) ∧
    (r.compiled = true → r.success = true →
      (executeAnonymous r).text = "Compilation: Success\nExecution: Success") ∧
    (r.compiled = true → r.success = false →
      (executeAnonymous r).text =
        "Compilation: Success\nExecution: Failed\n" ++ r.exceptionMessage ++
          execStackSuffix r) := by
  refine ⟨rfl, ?_, ?_, ?_⟩
  · intro h
    simp only [executeAnonymous, h]
    rfl
  · intro h hs
    simp only [executeAnonymous, h, hs]
    rfl
  · intro h hs
    simp only [executeAnonymous, h, hs]
    rfl

def execResultDivByZero : ExecAnonResult :=
  { compiled := true, success := false, exceptionMessage := "Division by zero" }

/-- Witness for C8 at the spec's concrete scenario (`compiled: true,
success: false, exceptionMessage: "Division by zero"`). -/
theorem executeAnonymous_outcomes_witness :
    execResultDivByZero.compiled = true ∧
    execResultDivByZero.success = false ∧
    (executeAnonymous execResultDivByZero).text =
      "Compilation: Success\nExecution: Failed\n" ++ "Division by zero" ++
        execStackSuffix execResultDivByZero ∧
    (executeAnonymous execResultDivByZero).isError = false :=
  ⟨rfl, rfl,
    (executeAnonymous_outcomes execResultDivByZero).2.2.2 rfl rfl,
    (executeAnonymous_outcomes execResultDivByZero).1⟩

def manageObjectArgsUpd : ManageObjectArgs :=
  { operation := "update", objectName := "Invoice", label := some "Invoice" }

def existingInvoiceMeta : CustomObjectMeta :=
  { fullName := "Invoice__c", label := some "Invoice",
    description := some "Keep this description",
    nameField := { label := some "Invoice Name", type := some "Text" },
    deploymentStatus := some "Deployed", sharingModel := some "Private" }

/-- Claim C1 counterexample: the monolithic `manageObject` update issues a
single metadata update built from the arguments alone — no read precedes
it — and the submitted descriptor drops the existing object's description
and resets its sharing model to the default, although neither attribute was
named in the call. -/
theorem manageObject_update_blind_overwrite :
    manageObjectCalls manageObjectArgsUpd =
      [MetaCall.metadataUpdate "CustomObject" (manageObjectMetadata manageObjectArgsUpd)] ∧
    (manageObjectMetadata manageObjectArgsUpd).description = none ∧
    existingInvoiceMeta.description = some "Keep this description" ∧
    (manageObjectMetadata manageObjectArgsUpd).sharingModel = some "ReadWrite" ∧
    existingInvoiceMeta.sharingModel = some "Private" := by
  refine ⟨by decide, by decide, rfl, by decide, rfl⟩

/-- Claim C1 (amended): the modular `manageObject` update performs
read-merge-write — it fetches the current descriptor, submits the merge of
that descriptor with the truthy caller-supplied overrides, and every
attribute not supplied in the call is carried over unchanged from the
current descriptor; the monolithic `manageObject`/`manageField` update
handlers instead submit a descriptor built from the arguments alone. -/
theorem manageObjectModular_update_read_merge_write (current : CustomObjectMeta)
    (args : ManageObjectArgs) (ok : Bool) (hop : args.operation = "update") :
    (manageObjectModular args (some current) ok).2 =
      [MetaCall.metadataRead "CustomObject" args.objectName,
       MetaCall.metadataUpdate "CustomObject" (mergeObjectUpdate current args)] ∧
    (mergeObjectUpdate current args).fullName = current.fullName ∧
    (mergeObjectUpdate current args).deploymentStatus = current.deploymentStatus ∧
    (args.label = none → (mergeObjectUpdate current args).label = current.label) ∧
    (args.pluralLabel = none →
      (mergeObjectUpdate current args).pluralLabel = current.pluralLabel) ∧
    (args.description = none →
      (mergeObjectUpdate current args).description = current.description) ∧
    (args.sharingModel = none →
      (mergeObjectUpdate current args).sharingModel = current.sharingModel) ∧
    (args.nameFieldLabel = none →
      (mergeObjectUpdate current args).nameField.label = current.nameField.label) ∧
    (args.nameFieldType = none →
      (mergeObjectUpdate current args).nameField.type = current.nameField.type) ∧
    (args.nameFieldFormat = none →
      (mergeObjectUpdate current args).nameField.displayFormat =
        current.nameField.displayFormat) := by
  have hne : ¬ args.operation = "create" := by rw [hop]; decide
  refine ⟨by simp [manageObjectModular, hne], rfl, rfl, ?_, ?_, ?_, ?_, ?_, ?_, ?_⟩ <;>
    intro h <;> simp [mergeObjectUpdate, overrideS, h, jsTruthyS]

def manageObjectArgsBare : ManageObjectArgs :=
  { operation := "update", objectName := "Invoice__c" }

/-- Witness for the amended C1: an update naming no attribute fetches and
resubmits the current descriptor with every attribute unchanged. -/
theorem manageObjectModular_update_read_merge_write_witness :
    manageObjectArgsBare.operation = "update" ∧
    (manageObjectModular manageObjectArgsBare (some existingInvoiceMeta) true).2 =
      [MetaCall.metadataRead "CustomObject" "Invoice__c",
       MetaCall.metadataUpdate "CustomObject"
         (mergeObjectUpdate existingInvoiceMeta manageObjectArgsBare)] ∧
    (mergeObjectUpdate existingInvoiceMeta manageObjectArgsBare).description =
      existingInvoiceMeta.description ∧
    (mergeObjectUpdate existingInvoiceMeta manageObjectArgsBare).sharingModel =
      existingInvoiceMeta.sharingModel :=
  ⟨rfl,
    (manageObjectModular_update_read_merge_write existingInvoiceMeta
      manageObjectArgsBare true rfl).1,
    (manageObjectModular_update_read_merge_write existingInvoiceMeta
      manageObjectArgsBare true rfl).2.2.2.2.2.1 rfl,
    (manageObjectModular_update_read_merge_write existingInvoiceMeta
      manageObjectArgsBare true rfl).2.2.2.2.2.2.1 rfl⟩

def grantPlatformAB : GrantPlatform :=
  { queryProfile := fun name => Except.ok [name ++ "ProfileId"],
    queryPermSet := fun profileId => Except.ok [profileId ++ "PermSet"],
    createFieldPermission := fun permSetId _ _ =>
      if permSetId = "AProfileIdPermSet" then Except.error "insert failed"
      else Except.ok (),
    queryFieldPermissions := fun _ => [] }

def grantArgsAB : FieldPermArgs :=
  { operation := FieldPermOp.grant, objectName := "Account", fieldName := "Rating",
    profileNames := some ["A", "B"] }

/-- Claim C2 (code bug): granting to profiles A and B where the platform's
field-permission insert for profile A throws still renders "Granted to A"
next to "Granted to B" — the error is swallowed inside
`grantFieldPermissions`, whose per-profile catch only logs, so the
"Failed for ..." branch of `manageFieldPermissions` can never fire for a
platform failure; the trace shows the failing insert was attempted. -/
theorem manageFieldPermissions_grant_swallows_failure :
    grantPlatformAB.createFieldPermission "AProfileIdPermSet" "Account"
      "Account.Rating__c" = Except.error "insert failed" ∧
    (manageFieldPermissions grantPlatformAB grantArgsAB).1 =
      { text := "Granted to A\nGranted to B", isError := false } ∧
    (manageFieldPermissions grantPlatformAB grantArgsAB).2 =
      [PlatCall.queryProfile "A", PlatCall.queryPermSet "AProfileId",
       PlatCall.createFieldPermission "AProfileIdPermSet" "Account" "Account.Rating__c",
       PlatCall.queryProfile "B", PlatCall.queryPermSet "BProfileId",
       PlatCall.createFieldPermission "BProfileIdPermSet" "Account" "Account.Rating__c"] := by
  refine ⟨rfl, by decide, by decide⟩

/-- Helper: flattening a constant-empty map yields the empty list. -/
theorem flatten_map_nil {α β : Type} (l : List α) :
    (l.map (fun _ => ([] : List β))).flatten = [] := by
  induction l <;> simp [*]

/-- Claim C3: a revoke call issues no platform call at all — the platform's
field-permission state is untouched — yet the non-error response reports
"Revoked from" every listed profile. -/
theorem manageFieldPermissions_revoke_no_mutation (p : GrantPlatform)
    (args : FieldPermArgs) (ps : List String)
    (hop : args.operation = FieldPermOp.revoke)
    (hp : args.profileNames = some ps) :
    (manageFieldPermissions p args).2 = [] ∧
    (manageFieldPermissions p args).1 =
      { text := String.intercalate "\n" (ps.map (fun q => "Revoked from " ++ q)),
        isError := false } := by
  constructor
  · simp [manageFieldPermissions, hop, hp, flatten_map_nil]
  · simp only [manageFieldPermissions, hop, hp, Option.getD_some, List.map_map]
    rfl

def revokeArgsAB : FieldPermArgs :=
  { operation := FieldPermOp.revoke, objectName := "Account", fieldName := "Rating",
    profileNames := some ["A", "B"] }

/-- Witness for C3 at a concrete revoke call over two profiles. -/
theorem manageFieldPermissions_revoke_no_mutation_witness :
    revokeArgsAB.operation = FieldPermOp.revoke ∧
    revokeArgsAB.profileNames = some ["A", "B"] ∧
    (manageFieldPermissions grantPlatformAB revokeArgsAB).2 = [] ∧
    (manageFieldPermissions grantPlatformAB revokeArgsAB).1 =
      { text := String.intercalate "\n"
          (["A", "B"].map (fun q => "Revoked from " ++ q)), isError := false } :=
  ⟨rfl, rfl,
    (manageFieldPermissions_revoke_no_mutation grantPlatformAB revokeArgsAB
      ["A", "B"] rfl rfl).1,
    (manageFieldPermissions_revoke_no_mutation grantPlatformAB revokeArgsAB
      ["A", "B"] rfl rfl).2⟩

/-- Claim C10: when `profileNames` is absent, a grant or revoke call behaves
exactly as if the single-element list ["System Administrator"] had been
passed: same response, same platform calls. -/
theorem manageFieldPermissions_default_profile (p : GrantPlatform)
    (args : FieldPermArgs)
    (hop : args.operation = FieldPermOp.grant ∨ args.operation = FieldPermOp.revoke)
    (hp : args.profileNames = none) :
    manageFieldPermissions p args =
      manageFieldPermissions p { args with profileNames := some ["System Administrator"] } := by
  rcases hop with h | h <;> simp [manageFieldPermissions, h, hp]

def grantArgsNoProfiles : FieldPermArgs :=
  { operation := FieldPermOp.grant, objectName := "Account", fieldName := "Rating" }

/-- Witness for C10 at a concrete grant call without `profileNames`. -/
theorem manageFieldPermissions_default_profile_witness :
    grantArgsNoProfiles.profileNames = none ∧
    manageFieldPermissions grantPlatformAB grantArgsNoProfiles =
      manageFieldPermissions grantPlatformAB
        { grantArgsNoProfiles with profileNames := some ["System Administrator"] } :=
  ⟨rfl,
    manageFieldPermissions_default_profile grantPlatformAB grantArgsNoProfiles
      (Or.inl rfl) rfl⟩
